import Mathlib

/-! Shader source splitter and shader program construction (`Application.cpp`).

A shallow embedding of `ParseShader`, `ComplileShader` and `CreateShader` from
`OpenGL/src/Application.cpp`.

* A `std::string` is a list of characters (`Str`).
* The `std::ifstream` opened on `filepath` is the text still to be read; a file that
  cannot be opened is `none`.
* `std::getline(stream, line)` extracts characters up to the next `'\n'`, which it
  consumes and does not store; it fails when no character could be extracted.
* The graphics driver is an oracle: a record of response functions over an abstract
  driver state.  Every `gl*` call is logged in the order it is issued.
* A `const char*` handed over without a length is read up to its first `'\0'`; the
  `alloca` buffer is a list of bytes that records which of them were written. Where
  the code's behaviour is undefined the model returns `none`.
-/

namespace OpenGL

/-- A `std::string`. -/
abbrev Str := List Char

/-! ## `std::string::find` -/

/-- The call `s.find(pat)`: the index of the first occurrence of `pat` in `s`;
`none` stands for `std::string::npos`. -/
def find : Str → Str → Option Nat
  | [], pat => if pat.isPrefixOf [] then some 0 else none
  | c :: t, pat => if pat.isPrefixOf (c :: t) then some 0 else (find t pat).map (· + 1)

/-- The test `s.find(pat) != std::string::npos`. -/
def found (s pat : Str) : Bool := (find s pat).isSome

/-! ## `std::getline` and the input stream -/

/-- The call `getline(stream, line)` on a stream whose unread text is the argument:
`none` when the call fails (nothing left to extract), otherwise the line read
(without its terminator) and the text left unread. -/
def getline : Str → Option (Str × Str)
  | [] => none
  | c :: t => some ((c :: t).takeWhile (· != '\n'), ((c :: t).dropWhile (· != '\n')).drop 1)

/-- The values `line` takes over the iterations of `while (getline(stream, line))`. -/
def readLines : Nat → Str → List Str
  | 0, _ => []
  | fuel + 1, stream =>
    match getline stream with
    | none => []
    | some (line, rest) => line :: readLines fuel rest

/-- The lines of a file as `ParseShader` sees them; a file that cannot be opened
yields no line at all. -/
def linesOf : Option Str → List Str
  | none => []
  | some text => readLines (text.length + 1) text

/-! ## `ParseShader` -/

/-- The struct `ShaderProgramSource`. -/
structure ShaderProgramSource where
  VertexSource : Str
  FragmentSource : Str
  deriving DecidableEq, Repr

/-- The local `enum class ShaderType`. -/
inductive ShaderType where
  | NONE
  | VERTEX
  | FRAGMENT
  deriving DecidableEq, Repr

/-- The cast `(int)mode`. -/
def ShaderType.toInt : ShaderType → Int
  | .NONE => -1
  | .VERTEX => 0
  | .FRAGMENT => 1

/-- The locals of `ParseShader` that the loop updates: `mode` and the two string
streams `ss[0]`, `ss[1]`. -/
structure Locals where
  mode : ShaderType
  ss0 : Str
  ss1 : Str
  deriving DecidableEq, Repr

/-- The statement `ss[i] << line << "\n"`. -/
def Locals.put (st : Locals) (i : Int) (line : Str) : Locals :=
  if i = 0 then { st with ss0 := st.ss0 ++ line ++ ['\n'] }
  else if i = 1 then { st with ss1 := st.ss1 ++ line ++ ['\n'] }
  else st

/-- The text `#shader`. -/
def kwShader : Str := "#shader".toList

/-- The text `vertex`. -/
def kwVertex : Str := "vertex".toList

/-- The text `fragment`. -/
def kwFragment : Str := "fragment".toList

/-- The body of the `while` loop of `ParseShader`, run on one `line`. -/
def body (st : Locals) (line : Str) : Locals :=
  if found line kwShader then
    if found line kwVertex then { st with mode := .VERTEX }
    else if found line kwFragment then { st with mode := .FRAGMENT }
    else st
  else if st.mode ≠ .NONE then st.put st.mode.toInt line
  else st

/-- The loop `while (getline(stream, line)) { ... }` of `ParseShader`. -/
def parseLoop : Nat → Str → Locals → Locals
  | 0, _, st => st
  | fuel + 1, stream, st =>
    match getline stream with
    | none => st
    | some (line, rest) => parseLoop fuel rest (body st line)

/-- The locals as declared before the loop. -/
def initLocals : Locals := { mode := .NONE, ss0 := [], ss1 := [] }

/-- The function `ParseShader`, applied to the content of the file at `filepath`
(`none` when the file cannot be opened: every `getline` then fails). Each successful
`getline` consumes at least one character, so `text.length + 1` iterations always
reach the failing `getline` that ends the loop. -/
def ParseShader (file : Option Str) : ShaderProgramSource :=
  match file with
  | none => { VertexSource := initLocals.ss0, FragmentSource := initLocals.ss1 }
  | some text =>
    let st := parseLoop (text.length + 1) text initLocals
    { VertexSource := st.ss0, FragmentSource := st.ss1 }

/-! ## The graphics driver, `ComplileShader` and `CreateShader` -/

/-- The OpenGL constant `GL_FALSE`. -/
def GL_FALSE : Int := 0

/-- The OpenGL constant `GL_VERTEX_SHADER`. -/
def GL_VERTEX_SHADER : Nat := 0x8B31

/-- The OpenGL constant `GL_FRAGMENT_SHADER`. -/
def GL_FRAGMENT_SHADER : Nat := 0x8B30

/-- The OpenGL constant `GL_COMPILE_STATUS`. -/
def GL_COMPILE_STATUS : Nat := 0x8B81

/-- The OpenGL constant `GL_INFO_LOG_LENGTH`. -/
def GL_INFO_LOG_LENGTH : Nat := 0x8B84

/-- The character `'\0'` that ends a C string. -/
def NUL : Char := Char.ofNat 0

/-- The text a callee reads from the pointer `s.c_str()` when it is given no length:
the characters before the first `'\0'`. -/
def c_str (s : Str) : Str := s.takeWhile (· != NUL)

/-- A buffer of `char`; `none` is a byte that has not been written. -/
abbrev Buffer := List (Option Char)

/-- The call `alloca(length * sizeof(char))` for an `int length`: a buffer of `length`
bytes, none of them written. A negative `length` becomes a huge `size_t` and the
allocation is undefined (`none`). -/
def alloca (length : Int) : Option Buffer :=
  if length < 0 then none else some (List.replicate length.toNat none)

/-- The driver stores the characters `text` from the start of the buffer; storing
past its end is undefined (`none`). -/
def Buffer.store (buf : Buffer) (text : Str) : Option Buffer :=
  if text.length ≤ buf.length then some (text.map some ++ buf.drop text.length) else none

/-- The buffer read as a C string, the way `std::cout << log` reads it: the characters
before the first `'\0'`. Reading a byte that was never written, or past the end of the
buffer, is undefined (`none`). -/
def Buffer.readCString : Buffer → Option Str
  | [] => none
  | none :: _ => none
  | some c :: rest => if c = NUL then some [] else (Buffer.readCString rest).map (c :: ·)

/-- A call made to the driver, with the arguments the program chooses (for
`glShaderSource` the text the driver reads through the pointer it is given). -/
inductive GLCall where
  | glCreateShader (type : Nat)
  | glShaderSource (id : Nat) (src : Str)
  | glCompileShader (id : Nat)
  | glGetShaderiv (id : Nat) (pname : Nat)
  | glGetShaderInfoLog (id : Nat) (bufSize : Int)
  | glCreateProgram
  | glAttachShader (program : Nat) (shader : Nat)
  | glLinkProgram (program : Nat)
  | glValidateProgram (program : Nat)
  | glDeleteShader (shader : Nat)
  deriving DecidableEq, Repr

/-- The graphics driver as an oracle over its own state `σ`: each function gives the
state after the call and, where the call has one, its result. `getShaderiv` gives the
value stored in `*params`; `getShaderInfoLog` gives the characters the driver stores
in the buffer it is handed, from its first byte on (a terminating `'\0'` included
when the driver writes one). -/
structure Driver (σ : Type) where
  createShader : Nat → σ → Nat × σ
  shaderSource : Nat → Str → σ → σ
  compileShader : Nat → σ → σ
  getShaderiv : Nat → Nat → σ → Int × σ
  getShaderInfoLog : Nat → Int → σ → Str × σ
  createProgram : σ → Nat × σ
  attachShader : Nat → Nat → σ → σ
  linkProgram : Nat → σ → σ
  validateProgram : Nat → σ → σ
  deleteShader : Nat → σ → σ

/-- What the program acts on: the driver state, the `gl*` calls issued so far (oldest
first) and the text written to `std::cout`. -/
structure World (σ : Type) where
  gl : σ
  calls : List GLCall
  cout : Str
  deriving DecidableEq, Repr

/-- The call `glCreateShader(type)`. -/
def glCreateShader {σ : Type} (D : Driver σ) (type : Nat) (w : World σ) : Nat × World σ :=
  ((D.createShader type w.gl).1,
   { w with gl := (D.createShader type w.gl).2, calls := w.calls ++ [.glCreateShader type] })

/-- The call `glShaderSource(id, 1, &src, nullptr)`: with no length given the driver
reads `src` as a C string. -/
def glShaderSource {σ : Type} (D : Driver σ) (id : Nat) (src : Str) (w : World σ) : World σ :=
  { w with gl := D.shaderSource id src w.gl, calls := w.calls ++ [.glShaderSource id src] }

/-- The call `glCompileShader(id)`. -/
def glCompileShader {σ : Type} (D : Driver σ) (id : Nat) (w : World σ) : World σ :=
  { w with gl := D.compileShader id w.gl, calls := w.calls ++ [.glCompileShader id] }

/-- The call `glGetShaderiv(id, pname, &out)`; the result is the value of `out`. -/
def glGetShaderiv {σ : Type} (D : Driver σ) (id pname : Nat) (w : World σ) : Int × World σ :=
  ((D.getShaderiv id pname w.gl).1,
   { w with gl := (D.getShaderiv id pname w.gl).2,
            calls := w.calls ++ [.glGetShaderiv id pname] })

/-- The call `glGetShaderInfoLog(id, length, &length, log)`; the result is the
characters the driver stores in `log`. -/
def glGetShaderInfoLog {σ : Type} (D : Driver σ) (id : Nat) (length : Int) (w : World σ) :
    Str × World σ :=
  ((D.getShaderInfoLog id length w.gl).1,
   { w with gl := (D.getShaderInfoLog id length w.gl).2,
            calls := w.calls ++ [.glGetShaderInfoLog id length] })

/-- The call `glCreateProgram()`. -/
def glCreateProgram {σ : Type} (D : Driver σ) (w : World σ) : Nat × World σ :=
  ((D.createProgram w.gl).1,
   { w with gl := (D.createProgram w.gl).2, calls := w.calls ++ [.glCreateProgram] })

/-- The call `glAttachShader(program, shader)`. -/
def glAttachShader {σ : Type} (D : Driver σ) (program shader : Nat) (w : World σ) : World σ :=
  { w with gl := D.attachShader program shader w.gl,
           calls := w.calls ++ [.glAttachShader program shader] }

/-- The call `glLinkProgram(program)`. -/
def glLinkProgram {σ : Type} (D : Driver σ) (program : Nat) (w : World σ) : World σ :=
  { w with gl := D.linkProgram program w.gl, calls := w.calls ++ [.glLinkProgram program] }

/-- The call `glValidateProgram(program)`. -/
def glValidateProgram {σ : Type} (D : Driver σ) (program : Nat) (w : World σ) : World σ :=
  { w with gl := D.validateProgram program w.gl,
           calls := w.calls ++ [.glValidateProgram program] }

/-- The call `glDeleteShader(shader)`. -/
def glDeleteShader {σ : Type} (D : Driver σ) (shader : Nat) (w : World σ) : World σ :=
  { w with gl := D.deleteShader shader w.gl, calls := w.calls ++ [.glDeleteShader shader] }

/-- The statement `std::cout << text << std::endl`. -/
def coutLine {σ : Type} (text : Str) (w : World σ) : World σ :=
  { w with cout := w.cout ++ text ++ ['\n'] }

/-- The function `ComplileShader`. The result is `none` when the behaviour of the code
is undefined: `alloca` of a negative size, the driver storing past the end of `log`,
or `std::cout << log` reading a byte of `log` that was never written or lies past
its end. -/
def ComplileShader {σ : Type} (D : Driver σ) (type : Nat) (source : Str) (w : World σ) :
    Option (Nat × World σ) :=
  let (id, w) := glCreateShader D type w
  let src := c_str source
  let w := glShaderSource D id src w
  let w := glCompileShader D id w
  let (result, w) := glGetShaderiv D id GL_COMPILE_STATUS w
  if result = GL_FALSE then
    let (length, w) := glGetShaderiv D id GL_INFO_LOG_LENGTH w
    match alloca length with
    | none => none
    | some log =>
      let (stored, w) := glGetShaderInfoLog D id length w
      match log.store stored with
      | none => none
      | some log =>
        let w := coutLine ("Failed to compile ".toList
          ++ (if type = GL_VERTEX_SHADER then "vertex".toList else "fragment".toList)) w
        match log.readCString with
        | none => none
        | some text =>
          let w := coutLine text w
          some (0, w)
  else
    some (id, w)

/-- The function `CreateShader`; `none` when a call of `ComplileShader` is undefined. -/
def CreateShader {σ : Type} (D : Driver σ) (vertexShader fragmentShader : Str) (w : World σ) :
    Option (Nat × World σ) :=
  let (program, w) := glCreateProgram D w
  match ComplileShader D GL_VERTEX_SHADER vertexShader w with
  | none => none
  | some (vs, w) =>
    match ComplileShader D GL_FRAGMENT_SHADER fragmentShader w with
    | none => none
    | some (fs, w) =>
      let w := glAttachShader D program vs w
      let w := glAttachShader D program fs w
      let w := glLinkProgram D program w
      let w := glValidateProgram D program w
      let w := glDeleteShader D vs w
      let w := glDeleteShader D fs w
      some (program, w)

/-- A driver for the examples. Its state is the number of handles given out and the
list of the calls it has served (oldest first); every handle is the next number. The
compile status it reports for the shader with handle `id` is `GL_FALSE` exactly when
`failing id` holds; its information log is `log`: it reports `log.length` as
`GL_INFO_LOG_LENGTH` and stores `log` in the buffer. -/
def recordingDriver (failing : Nat → Bool) (log : Str) : Driver (Nat × List GLCall) where
  createShader := fun type g => (g.1 + 1, (g.1 + 1, g.2 ++ [.glCreateShader type]))
  shaderSource := fun id src g => (g.1, g.2 ++ [.glShaderSource id src])
  compileShader := fun id g => (g.1, g.2 ++ [.glCompileShader id])
  getShaderiv := fun id pname g =>
    (if pname = GL_COMPILE_STATUS then (if failing id then 0 else 1) else log.length,
     (g.1, g.2 ++ [.glGetShaderiv id pname]))
  getShaderInfoLog := fun id bufSize g => (log, (g.1, g.2 ++ [.glGetShaderInfoLog id bufSize]))
  createProgram := fun g => (g.1 + 1, (g.1 + 1, g.2 ++ [.glCreateProgram]))
  attachShader := fun program shader g => (g.1, g.2 ++ [.glAttachShader program shader])
  linkProgram := fun program g => (g.1, g.2 ++ [.glLinkProgram program])
  validateProgram := fun program g => (g.1, g.2 ++ [.glValidateProgram program])
  deleteShader := fun shader g => (g.1, g.2 ++ [.glDeleteShader shader])

/-! ## Auxiliary notions used to state and prove the properties -/

/-- A list of lines, each followed by `"\n"`, concatenated in order. -/
def joinLines (ls : List Str) : Str := ls.flatMap (· ++ ['\n'])

/-- The line `#shader vertex`. -/
def lineVertex : Str := "#shader vertex".toList

/-- The line `#shader fragment`. -/
def lineFragment : Str := "#shader fragment".toList

/-- The mode after a line containing `#shader` has been processed in mode `m`. -/
def markerMode (m : ShaderType) (line : Str) : ShaderType :=
  if found line kwVertex then .VERTEX
  else if found line kwFragment then .FRAGMENT
  else m

/-- The mode after the lines `ls` have been processed, starting in mode `m`. -/
def finalMode (m : ShaderType) : List Str → ShaderType
  | [] => m
  | l :: ls => if found l kwShader then finalMode (markerMode m l) ls else finalMode m ls

/-- The lines that are appended to the string stream of `target` while the lines
`ls` are processed, starting in mode `m`. -/
def linesFor (target : ShaderType) (m : ShaderType) : List Str → List Str
  | [] => []
  | l :: ls =>
    if found l kwShader then linesFor target (markerMode m l) ls
    else if m = target then l :: linesFor target m ls
    else linesFor target m ls

/-! ## The outputs as the specification words them

Each output is described line by line: a line goes to the output of a mode when it
does not contain `#shader` and the most recent mode-setting marker before it selected
that mode. -/

/-- A mode-setting marker: a line containing `#shader` together with `vertex` or
`fragment`. -/
def isModeMarker (line : Str) : Bool :=
  found line kwShader && (found line kwVertex || found line kwFragment)

/-- The mode a mode-setting marker selects: vertex when the line contains `vertex`,
fragment otherwise. -/
def selects (line : Str) : ShaderType :=
  if found line kwVertex then .VERTEX else .FRAGMENT

/-- The mode selected by the most recent mode-setting marker among the lines
`earlier`, if there is one. -/
def recentMode (earlier : List Str) : Option ShaderType :=
  (earlier.reverse.find? isModeMarker).map selects

/-- The positions, in input order, of the lines that do not contain `#shader` and
whose most recent earlier mode-setting marker selected `target`. -/
def selected (target : ShaderType) (ls : List Str) : List Nat :=
  (List.range ls.length).filter
    (fun i => !found (ls.getD i []) kwShader && recentMode (ls.take i) == some target)

/-- The concatenation, in input order, of (line + `"\n"`) over the selected lines. -/
def specSource (target : ShaderType) (ls : List Str) : Str :=
  (selected target ls).flatMap (fun i => ls.getD i [] ++ ['\n'])

/-! ## Basic facts: `find`, `getline`, the loop -/

theorem found_nil (pat : Str) : found [] pat = decide (pat = []) := by
  cases pat <;> simp [found, find]

theorem found_cons (c : Char) (t pat : Str) :
    found (c :: t) pat = (pat.isPrefixOf (c :: t) || found t pat) := by
  unfold found
  rw [find]
  by_cases h : pat.isPrefixOf (c :: t) = true
  · simp [h]
  · simp [h]

/-- The test `s.find(pat) != npos` holds exactly when `pat` is a contiguous
substring of `s`. -/
theorem found_iff (s pat : Str) : found s pat = true ↔ pat <:+: s := by
  induction s with
  | nil =>
    rw [found_nil]
    simp
  | cons c t ih =>
    rw [found_cons, Bool.or_eq_true, ih, List.isPrefixOf_iff_prefix, List.infix_cons_iff]

theorem not_found_iff (s pat : Str) : found s pat = false ↔ ¬ pat <:+: s := by
  rw [← found_iff]
  simp

theorem parseLoop_eq_foldl (fuel : Nat) (stream : Str) (st : Locals) :
    parseLoop fuel stream st = (readLines fuel stream).foldl body st := by
  induction fuel generalizing stream st with
  | zero => rfl
  | succ n ih =>
    rw [parseLoop, readLines]
    cases h : getline stream with
    | none => rfl
    | some p =>
      obtain ⟨line, rest⟩ := p
      simp only [List.foldl_cons]
      exact ih rest (body st line)

/-- The function `ParseShader` runs the loop body over the lines of the file. -/
theorem ParseShader_eq (file : Option Str) :
    ParseShader file =
      { VertexSource := ((linesOf file).foldl body initLocals).ss0,
        FragmentSource := ((linesOf file).foldl body initLocals).ss1 } := by
  cases file with
  | none => rfl
  | some text =>
    simp only [ParseShader, linesOf, parseLoop_eq_foldl]

theorem getline_rest_length (s line rest : Str) (h : getline s = some (line, rest)) :
    rest.length < s.length := by
  cases s with
  | nil => simp [getline] at h
  | cons c t =>
    simp only [getline, Option.some.injEq, Prod.mk.injEq] at h
    rw [← h.2, List.length_drop]
    have := (List.dropWhile_sublist (· != '\n') (l := c :: t)).length_le
    simp only [List.length_cons] at this ⊢
    omega

theorem readLines_fuel_irrel (f g : Nat) (s : Str) (hf : s.length < f) (hg : s.length < g) :
    readLines f s = readLines g s := by
  induction f generalizing g s with
  | zero => omega
  | succ n ih =>
    cases g with
    | zero => omega
    | succ k =>
      rw [readLines, readLines]
      cases hl : getline s with
      | none => rfl
      | some p =>
        obtain ⟨line, rest⟩ := p
        have hlen := getline_rest_length s line rest hl
        simp only
        rw [ih k rest (by omega) (by omega)]

/-- Any fuel above the length of the unread text gives the same lines: the loop stops
because `getline` fails, not because the fuel runs out. -/
theorem readLines_fuel (fuel : Nat) (s : Str) (h : s.length < fuel) :
    readLines fuel s = readLines (s.length + 1) s :=
  readLines_fuel_irrel fuel (s.length + 1) s h (Nat.lt_succ_self _)

/-- The loop of `ParseShader` ends because `getline` fails: any two amounts of fuel
above the length of the unread text give the same locals. -/
theorem parseLoop_fuel_irrel (f g : Nat) (s : Str) (st : Locals)
    (hf : s.length < f) (hg : s.length < g) : parseLoop f s st = parseLoop g s st := by
  rw [parseLoop_eq_foldl, parseLoop_eq_foldl, readLines_fuel_irrel f g s hf hg]

theorem getline_line_no_newline (s line rest : Str) (h : getline s = some (line, rest)) :
    '\n' ∉ line := by
  cases s with
  | nil => simp [getline] at h
  | cons c t =>
    simp only [getline, Option.some.injEq, Prod.mk.injEq] at h
    rw [← h.1]
    intro hmem
    have := List.mem_takeWhile_imp hmem
    simp at this

/-- No line handed to the loop body contains a line break. -/
theorem readLines_no_newline (fuel : Nat) (s : Str) :
    ∀ l ∈ readLines fuel s, '\n' ∉ l := by
  induction fuel generalizing s with
  | zero => simp [readLines]
  | succ n ih =>
    rw [readLines]
    cases hg : getline s with
    | none => simp
    | some p =>
      obtain ⟨line, rest⟩ := p
      intro l hl
      simp only [List.mem_cons] at hl
      rcases hl with rfl | hl
      · exact getline_line_no_newline s l rest hg
      · exact ih rest l hl

theorem linesOf_no_newline (file : Option Str) : ∀ l ∈ linesOf file, '\n' ∉ l := by
  cases file with
  | none => simp [linesOf]
  | some text => exact readLines_no_newline _ _

theorem getline_append_newline (l rest : Str) (h : '\n' ∉ l) :
    getline (l ++ '\n' :: rest) = some (l, rest) := by
  have hp : ∀ a ∈ l, (a != '\n') = true := by
    intro a ha
    simp only [bne_iff_ne, ne_eq]
    rintro rfl
    exact h ha
  have e1 : (l ++ '\n' :: rest).takeWhile (· != '\n') = l := by
    rw [List.takeWhile_append_of_pos hp]
    simp [List.takeWhile]
  have e2 : (l ++ '\n' :: rest).dropWhile (· != '\n') = '\n' :: rest := by
    rw [List.dropWhile_append_of_pos hp]
    simp [List.dropWhile]
  cases hl : l ++ '\n' :: rest with
  | nil => simp at hl
  | cons c t =>
    rw [hl] at e1 e2
    simp only [getline, e1, e2, List.drop_succ_cons, List.drop_zero]

/-- Every sequence of lines without line breaks is the line sequence of a file: the
text in which each line is followed by `"\n"`. -/
theorem linesOf_joinLines (ls : List Str) (h : ∀ l ∈ ls, '\n' ∉ l) :
    linesOf (some (joinLines ls)) = ls := by
  suffices H : ∀ fuel, (joinLines ls).length < fuel → readLines fuel (joinLines ls) = ls from
    H _ (Nat.lt_succ_self _)
  induction ls with
  | nil =>
    intro fuel hf
    cases fuel with
    | zero => omega
    | succ n => simp [joinLines, readLines, getline]
  | cons l ls ih =>
    intro fuel hf
    cases fuel with
    | zero => omega
    | succ n =>
      have hl : '\n' ∉ l := h l (by simp)
      have e : joinLines (l :: ls) = l ++ '\n' :: joinLines ls := by
        simp [joinLines]
      rw [e] at hf ⊢
      rw [readLines, getline_append_newline l _ hl]
      simp only [List.cons.injEq, true_and]
      apply ih (fun x hx => h x (by simp [hx]))
      simp only [List.length_append, List.length_cons] at hf
      omega

/-! ## The loop in terms of `finalMode` and `linesFor` -/

theorem joinLines_nil : joinLines [] = [] := rfl

theorem joinLines_cons (l : Str) (ls : List Str) :
    joinLines (l :: ls) = l ++ '\n' :: joinLines ls := by
  simp [joinLines]

theorem joinLines_append (xs ys : List Str) :
    joinLines (xs ++ ys) = joinLines xs ++ joinLines ys := by
  simp [joinLines]

theorem foldl_body (ls : List Str) (st : Locals) :
    ls.foldl body st =
      { mode := finalMode st.mode ls,
        ss0 := st.ss0 ++ joinLines (linesFor .VERTEX st.mode ls),
        ss1 := st.ss1 ++ joinLines (linesFor .FRAGMENT st.mode ls) } := by
  induction ls generalizing st with
  | nil => simp [finalMode, linesFor, joinLines]
  | cons l ls ih =>
    rw [List.foldl_cons, ih]
    obtain ⟨m, a, b⟩ := st
    by_cases hs : found l kwShader = true
    · by_cases hv : found l kwVertex = true
      · simp [body, finalMode, linesFor, markerMode, hs, hv]
      · by_cases hf : found l kwFragment = true
        · simp [body, finalMode, linesFor, markerMode, hs, hv, hf]
        · simp [body, finalMode, linesFor, markerMode, hs, hv, hf]
    · cases m <;>
        simp [body, finalMode, linesFor, hs, Locals.put, ShaderType.toInt, joinLines_cons]

/-- The two outputs of `ParseShader` are the lines collected for each stream, each
followed by a line break. -/
theorem ParseShader_lines (file : Option Str) :
    ParseShader file =
      { VertexSource := joinLines (linesFor .VERTEX .NONE (linesOf file)),
        FragmentSource := joinLines (linesFor .FRAGMENT .NONE (linesOf file)) } := by
  rw [ParseShader_eq, foldl_body]
  simp [initLocals]

theorem finalMode_append (m : ShaderType) (xs ys : List Str) :
    finalMode m (xs ++ ys) = finalMode (finalMode m xs) ys := by
  induction xs generalizing m with
  | nil => rfl
  | cons l xs ih =>
    by_cases hs : found l kwShader = true <;> simp [finalMode, hs, ih]

theorem linesFor_append (t m : ShaderType) (xs ys : List Str) :
    linesFor t m (xs ++ ys) = linesFor t m xs ++ linesFor t (finalMode m xs) ys := by
  induction xs generalizing m with
  | nil => rfl
  | cons l xs ih =>
    by_cases hs : found l kwShader = true
    · simp [finalMode, linesFor, hs, ih]
    · by_cases hm : m = t <;> simp [finalMode, linesFor, hs, hm, ih]

theorem finalMode_plain (m : ShaderType) (ls : List Str)
    (h : ∀ l ∈ ls, found l kwShader = false) : finalMode m ls = m := by
  induction ls with
  | nil => rfl
  | cons l ls ih =>
    have hl := h l (by simp)
    simp only [finalMode, hl, Bool.false_eq_true, ite_false]
    exact ih (fun x hx => h x (by simp [hx]))

theorem linesFor_plain_same (t : ShaderType) (ls : List Str)
    (h : ∀ l ∈ ls, found l kwShader = false) : linesFor t t ls = ls := by
  induction ls with
  | nil => rfl
  | cons l ls ih =>
    have hl := h l (by simp)
    simp only [linesFor, hl, Bool.false_eq_true, ite_false, ite_true]
    rw [ih (fun x hx => h x (by simp [hx]))]

theorem linesFor_plain_other (t m : ShaderType) (hm : m ≠ t) (ls : List Str)
    (h : ∀ l ∈ ls, found l kwShader = false) : linesFor t m ls = [] := by
  induction ls with
  | nil => rfl
  | cons l ls ih =>
    have hl := h l (by simp)
    simp only [linesFor, hl, Bool.false_eq_true, ite_false, hm]
    exact ih (fun x hx => h x (by simp [hx]))

theorem linesFor_mem (t m : ShaderType) (ls : List Str) :
    ∀ l ∈ linesFor t m ls, l ∈ ls ∧ found l kwShader = false := by
  induction ls generalizing m with
  | nil => simp [linesFor]
  | cons x ls ih =>
    intro l hl
    by_cases hs : found x kwShader = true
    · simp only [linesFor, hs, ite_true] at hl
      have := ih _ l hl
      exact ⟨by simp [this.1], this.2⟩
    · by_cases hm : m = t
      · simp only [linesFor, hs, Bool.false_eq_true, ite_false, hm, ite_true,
          List.mem_cons] at hl
        rcases hl with rfl | hl
        · exact ⟨by simp, by simpa using hs⟩
        · have := ih _ l hl
          exact ⟨by simp [this.1], this.2⟩
      · simp only [linesFor, hs, Bool.false_eq_true, ite_false, hm] at hl
        have := ih _ l hl
        exact ⟨by simp [this.1], this.2⟩

/-! ## Marker lines -/

theorem linesFor_marker (t md : ShaderType) (m : Str) (Y : List Str)
    (hs : found m kwShader = true) :
    linesFor t md (m :: Y) = linesFor t (markerMode md m) Y := by
  simp [linesFor, hs]

theorem lineVertex_shader : found lineVertex kwShader = true := by decide

theorem lineVertex_vertex : found lineVertex kwVertex = true := by decide

theorem lineFragment_shader : found lineFragment kwShader = true := by decide

theorem lineFragment_vertex : found lineFragment kwVertex = false := by decide

theorem lineFragment_fragment : found lineFragment kwFragment = true := by decide

theorem linesFor_lineVertex (t md : ShaderType) (Y : List Str) :
    linesFor t md (lineVertex :: Y) = linesFor t .VERTEX Y := by
  rw [linesFor_marker t md _ Y lineVertex_shader]
  simp [markerMode, lineVertex_vertex]

theorem linesFor_lineFragment (t md : ShaderType) (Y : List Str) :
    linesFor t md (lineFragment :: Y) = linesFor t .FRAGMENT Y := by
  rw [linesFor_marker t md _ Y lineFragment_shader]
  simp [markerMode, lineFragment_vertex, lineFragment_fragment]

theorem linesFor_no_vertex (m : ShaderType) (hm : m ≠ .VERTEX) (ls : List Str)
    (h : ∀ l ∈ ls, ¬ (found l kwShader = true ∧ found l kwVertex = true)) :
    linesFor .VERTEX m ls = [] := by
  induction ls generalizing m with
  | nil => rfl
  | cons l ls ih =>
    have hl := h l (by simp)
    have ht : ∀ x ∈ ls, ¬ (found x kwShader = true ∧ found x kwVertex = true) :=
      fun x hx => h x (by simp [hx])
    by_cases hs : found l kwShader = true
    · have hv : found l kwVertex = false := by
        cases hv : found l kwVertex
        · rfl
        · exact absurd ⟨hs, hv⟩ hl
      rw [linesFor_marker _ _ _ _ hs]
      apply ih _ _ ht
      unfold markerMode
      rw [hv]
      by_cases hf : found l kwFragment = true <;> simp [hf, hm]
    · simp only [linesFor, hs, Bool.false_eq_true, ite_false, hm]
      exact ih m hm ht

/-! ## A text without line breaks never straddles two lines -/

theorem isPrefixOf_append_newline (pat a rest : Str) (h : '\n' ∉ pat) :
    pat.isPrefixOf (a ++ '\n' :: rest) = pat.isPrefixOf a := by
  induction pat generalizing a with
  | nil => simp
  | cons p ps ih =>
    have hp : p ≠ '\n' := fun e => h (by simp [e])
    have hps : '\n' ∉ ps := fun e => h (by simp [e])
    cases a with
    | nil => simp [List.isPrefixOf, hp]
    | cons x a =>
      have e := ih a hps
      simp only [List.cons_append, List.isPrefixOf]
      exact congrArg (p == x && ·) e

theorem found_append_newline (pat l rest : Str) (hne : pat ≠ []) (h : '\n' ∉ pat) :
    found (l ++ '\n' :: rest) pat = (found l pat || found rest pat) := by
  induction l with
  | nil =>
    have := isPrefixOf_append_newline pat [] rest h
    simp only [List.nil_append] at this
    rw [List.nil_append, found_cons, this, found_nil]
    cases pat with
    | nil => exact absurd rfl hne
    | cons p ps => simp [List.isPrefixOf]
  | cons c l ih =>
    have := isPrefixOf_append_newline pat (c :: l) rest h
    rw [List.cons_append] at this ⊢
    rw [found_cons, this, ih, found_cons, Bool.or_assoc]

theorem found_joinLines (pat : Str) (hne : pat ≠ []) (h : '\n' ∉ pat) (ls : List Str)
    (hls : ∀ l ∈ ls, found l pat = false) : found (joinLines ls) pat = false := by
  induction ls with
  | nil =>
    rw [joinLines_nil, found_nil]
    simpa using hne
  | cons l ls ih =>
    rw [joinLines_cons, found_append_newline pat l _ hne h, hls l (by simp),
      ih (fun x hx => hls x (by simp [hx]))]
    rfl

theorem kwShader_ne_nil : kwShader ≠ [] := by decide

theorem kwShader_no_newline : '\n' ∉ kwShader := by decide

/-! ## The properties of `ParseShader` -/

/-- C1 (as amended): for every input made of the line `#shader vertex`, then N lines
none of which contains `#shader`, then the line `#shader fragment`, then M lines none
of which contains `#shader`, `ParseShader` returns `VertexSource` equal to the N lines
each followed by a line break, and `FragmentSource` equal to the M lines each followed
by a line break. -/
theorem C1_vertex_then_fragment (file : Option Str) (V F : List Str)
    (h : linesOf file = lineVertex :: V ++ lineFragment :: F)
    (hV : ∀ l ∈ V, found l kwShader = false)
    (hF : ∀ l ∈ F, found l kwShader = false) :
    ParseShader file = { VertexSource := joinLines V, FragmentSource := joinLines F } := by
  rw [ParseShader_lines, h]
  have e : lineVertex :: V ++ lineFragment :: F = lineVertex :: (V ++ lineFragment :: F) := rfl
  rw [e, linesFor_lineVertex, linesFor_lineVertex, linesFor_append, linesFor_append,
    finalMode_plain _ V hV, linesFor_lineFragment, linesFor_lineFragment,
    linesFor_plain_same _ V hV, linesFor_plain_same _ F hF,
    linesFor_plain_other _ _ (by decide) V hV, linesFor_plain_other _ _ (by decide) F hF]
  simp

/-- C1, the scenario of the specification: the lines `#shader vertex`, `A`, `B`,
`#shader fragment`, `C` give `"A\nB\n"` and `"C\n"`. -/
theorem C1_vertex_then_fragment_witness :
    linesOf (some "#shader vertex\nA\nB\n#shader fragment\nC".toList)
        = lineVertex :: ["A".toList, "B".toList] ++ lineFragment :: ["C".toList]
      ∧ ParseShader (some "#shader vertex\nA\nB\n#shader fragment\nC".toList)
        = { VertexSource := "A\nB\n".toList, FragmentSource := "C\n".toList } :=
  ⟨by decide,
   C1_vertex_then_fragment (some "#shader vertex\nA\nB\n#shader fragment\nC".toList)
     ["A".toList, "B".toList] ["C".toList] (by decide) (by decide) (by decide)⟩

/-- C1 as written fails: with the lines `#shader vertex`, `// #shader off`,
`#shader fragment` (N = 1, M = 0) the one line of the vertex section contains
`#shader`, is taken for a marker and is not output: `VertexSource` is empty, not
the line followed by a line break. -/
theorem C1_counterexample :
    linesOf (some "#shader vertex\n// #shader off\n#shader fragment\n".toList)
        = lineVertex :: ["// #shader off".toList] ++ lineFragment :: []
      ∧ ParseShader (some "#shader vertex\n// #shader off\n#shader fragment\n".toList)
        = { VertexSource := [], FragmentSource := [] }
      ∧ ParseShader (some "#shader vertex\n// #shader off\n#shader fragment\n".toList)
        ≠ { VertexSource := joinLines ["// #shader off".toList],
            FragmentSource := joinLines [] } := by
  decide

/-- C3: when no line of the input contains `#shader`, both outputs are empty; a file
that cannot be opened yields no line, the loop body never runs and `ParseShader`
returns two empty strings (as it does for an empty file). -/
theorem C3_no_marker_gives_empty :
    (∀ file : Option Str, (∀ l ∈ linesOf file, found l kwShader = false) →
        ParseShader file = { VertexSource := [], FragmentSource := [] })
      ∧ linesOf none = []
      ∧ ParseShader none = { VertexSource := [], FragmentSource := [] }
      ∧ linesOf (some []) = []
      ∧ ParseShader (some []) = { VertexSource := [], FragmentSource := [] } := by
  refine ⟨?_, rfl, rfl, rfl, rfl⟩
  intro file h
  rw [ParseShader_lines, linesFor_plain_other _ _ (by decide) _ h,
    linesFor_plain_other _ _ (by decide) _ h]
  rfl

/-- C3 at the file with the two lines `void main();` and `int x;`. -/
theorem C3_no_marker_gives_empty_witness :
    (∀ l ∈ linesOf (some "void main();\nint x;\n".toList), found l kwShader = false)
      ∧ ParseShader (some "void main();\nint x;\n".toList)
        = { VertexSource := [], FragmentSource := [] } :=
  ⟨by decide, C3_no_marker_gives_empty.1 (some "void main();\nint x;\n".toList) (by decide)⟩

/-- C4: lines preceding the first marker are excluded from both outputs: if no line
of `P` contains `#shader`, the input `P` followed by `R` gives the same result as the
input `R`. -/
theorem C4_leading_lines_dropped (f g : Option Str) (P R : List Str)
    (hf : linesOf f = P ++ R) (hg : linesOf g = R)
    (hP : ∀ l ∈ P, found l kwShader = false) :
    ParseShader f = ParseShader g := by
  rw [ParseShader_lines, ParseShader_lines, hf, hg, linesFor_append, linesFor_append,
    finalMode_plain _ P hP, linesFor_plain_other _ _ (by decide) P hP,
    linesFor_plain_other _ _ (by decide) P hP]
  rfl

/-- C4 at `P` = the lines `// quad`, `x` and `R` = `#shader vertex`, `A`. -/
theorem C4_leading_lines_dropped_witness :
    ParseShader (some "// quad\nx\n#shader vertex\nA\n".toList)
      = ParseShader (some "#shader vertex\nA\n".toList)
      ∧ ParseShader (some "#shader vertex\nA\n".toList)
        = { VertexSource := "A\n".toList, FragmentSource := [] } :=
  ⟨C4_leading_lines_dropped (some "// quad\nx\n#shader vertex\nA\n".toList)
      (some "#shader vertex\nA\n".toList) ["// quad".toList, "x".toList]
      [lineVertex, "A".toList] (by decide) (by decide) (by decide),
   by decide⟩

/-- C5: for every input, neither `VertexSource` nor `FragmentSource` contains `#shader`
as a substring (so `find("#shader")` fails on both), and no line of either output
contains `#shader`. -/
theorem C5_marker_never_output (file : Option Str) :
    ¬ kwShader <:+: (ParseShader file).VertexSource
      ∧ ¬ kwShader <:+: (ParseShader file).FragmentSource
      ∧ found (ParseShader file).VertexSource kwShader = false
      ∧ found (ParseShader file).FragmentSource kwShader = false
      ∧ (∀ l ∈ linesOf (some (ParseShader file).VertexSource), found l kwShader = false)
      ∧ (∀ l ∈ linesOf (some (ParseShader file).FragmentSource),
          found l kwShader = false) := by
  have key : ∀ t : ShaderType,
      found (joinLines (linesFor t .NONE (linesOf file))) kwShader = false
        ∧ ∀ l ∈ linesOf (some (joinLines (linesFor t .NONE (linesOf file)))),
            found l kwShader = false := by
    intro t
    have hmem := linesFor_mem t .NONE (linesOf file)
    refine ⟨found_joinLines kwShader kwShader_ne_nil kwShader_no_newline _
      (fun l hl => (hmem l hl).2), ?_⟩
    rw [linesOf_joinLines _ (fun l hl => linesOf_no_newline file l (hmem l hl).1)]
    exact fun l hl => (hmem l hl).2
  rw [ParseShader_lines]
  refine ⟨?_, ?_, (key .VERTEX).1, (key .FRAGMENT).1, (key .VERTEX).2, (key .FRAGMENT).2⟩
  · exact (not_found_iff _ _).1 (key .VERTEX).1
  · exact (not_found_iff _ _).1 (key .FRAGMENT).1

/-- C6: an input made of the line `#shader fragment` followed by one or more lines
none of which contains `#shader` gives an empty `VertexSource` and a non-empty
`FragmentSource` equal to those lines each followed by a line break; and
`VertexSource` is empty for every input in which no line contains both `#shader`
and `vertex`. -/
theorem C6_fragment_only :
    (∀ (file : Option Str) (F : List Str), linesOf file = lineFragment :: F → F ≠ [] →
        (∀ l ∈ F, found l kwShader = false) →
        (ParseShader file).VertexSource = []
          ∧ (ParseShader file).FragmentSource = joinLines F
          ∧ (ParseShader file).FragmentSource ≠ [])
      ∧ (∀ file : Option Str,
          (∀ l ∈ linesOf file, ¬ (found l kwShader = true ∧ found l kwVertex = true)) →
          (ParseShader file).VertexSource = []) := by
  constructor
  · intro file F h hne hF
    rw [ParseShader_lines, h, linesFor_lineFragment, linesFor_lineFragment,
      linesFor_plain_same _ F hF, linesFor_plain_other _ _ (by decide) F hF]
    refine ⟨rfl, rfl, ?_⟩
    cases F with
    | nil => exact absurd rfl hne
    | cons l F => simp [joinLines_cons]
  · intro file h
    rw [ParseShader_lines, linesFor_no_vertex _ (by decide) _ h]
    rfl

/-- C6 at the lines `#shader fragment`, `C`, `D`, and at the lines `x`,
`#shader fragment`, `C`, `#shader`, `D`. -/
theorem C6_fragment_only_witness :
    ((ParseShader (some "#shader fragment\nC\nD\n".toList)).VertexSource = []
        ∧ (ParseShader (some "#shader fragment\nC\nD\n".toList)).FragmentSource
          = "C\nD\n".toList
        ∧ (ParseShader (some "#shader fragment\nC\nD\n".toList)).FragmentSource ≠ [])
      ∧ (ParseShader (some "x\n#shader fragment\nC\n#shader\nD".toList)).VertexSource
        = [] :=
  ⟨C6_fragment_only.1 (some "#shader fragment\nC\nD\n".toList) ["C".toList, "D".toList]
      (by decide) (by decide) (by decide),
   C6_fragment_only.2 (some "x\n#shader fragment\nC\n#shader\nD".toList) (by decide)⟩

/-- C7: the keyword `vertex` has priority over `fragment` on a marker line: a line
`m` containing `#shader` and `vertex` (with or without `fragment`) acts as the line
`#shader vertex` in any context `X`, `m`, `Y`; a line containing `#shader` and
`fragment` but not `vertex` acts as the line `#shader fragment`. -/
theorem C7_vertex_priority (X Y : List Str) (m : Str) (f g : Option Str)
    (hs : found m kwShader = true) (hf : linesOf f = X ++ m :: Y) :
    (found m kwVertex = true → linesOf g = X ++ lineVertex :: Y →
        ParseShader f = ParseShader g)
      ∧ (found m kwFragment = true → found m kwVertex = false →
          linesOf g = X ++ lineFragment :: Y → ParseShader f = ParseShader g) := by
  constructor
  · intro hv hg
    rw [ParseShader_lines, ParseShader_lines, hf, hg, linesFor_append, linesFor_append,
      linesFor_append, linesFor_append, linesFor_lineVertex, linesFor_lineVertex,
      linesFor_marker _ _ m Y hs, linesFor_marker _ _ m Y hs]
    simp [markerMode, hv]
  · intro hfr hv hg
    rw [ParseShader_lines, ParseShader_lines, hf, hg, linesFor_append, linesFor_append,
      linesFor_append, linesFor_append, linesFor_lineFragment, linesFor_lineFragment,
      linesFor_marker _ _ m Y hs, linesFor_marker _ _ m Y hs]
    simp [markerMode, hv, hfr]

/-- C7 at the marker `// fragment then vertex #shader` (both keywords, `fragment`
first, `#shader` last) after `#shader fragment`, `F` and before `A`; and at the
marker `fragment #shader` after `#shader vertex`, `V` and before `B`. -/
theorem C7_vertex_priority_witness :
    (ParseShader (some "#shader fragment\nF\n// fragment then vertex #shader\nA".toList)
        = ParseShader (some "#shader fragment\nF\n#shader vertex\nA".toList)
      ∧ ParseShader (some "#shader fragment\nF\n// fragment then vertex #shader\nA".toList)
        = { VertexSource := "A\n".toList, FragmentSource := "F\n".toList })
      ∧ ParseShader (some "#shader vertex\nV\nfragment #shader\nB".toList)
        = ParseShader (some "#shader vertex\nV\n#shader fragment\nB".toList) :=
  ⟨⟨(C7_vertex_priority [lineFragment, "F".toList] ["A".toList]
        "// fragment then vertex #shader".toList
        (some "#shader fragment\nF\n// fragment then vertex #shader\nA".toList)
        (some "#shader fragment\nF\n#shader vertex\nA".toList)
        (by decide) (by decide)).1 (by decide) (by decide),
     by decide⟩,
   (C7_vertex_priority [lineVertex, "V".toList] ["B".toList] "fragment #shader".toList
      (some "#shader vertex\nV\nfragment #shader\nB".toList)
      (some "#shader vertex\nV\n#shader fragment\nB".toList)
      (by decide) (by decide)).2 (by decide) (by decide) (by decide)⟩

/-- C8: a line `m` that contains `#shader` but neither `vertex` nor `fragment` leaves
the mode unchanged and is not output: the input `X`, `m`, `Y` gives the same result as
the input `X`, `Y`. -/
theorem C8_unknown_marker_ignored (X Y : List Str) (m : Str) (f g : Option Str)
    (hs : found m kwShader = true) (hv : found m kwVertex = false)
    (hfr : found m kwFragment = false)
    (hf : linesOf f = X ++ m :: Y) (hg : linesOf g = X ++ Y) :
    ParseShader f = ParseShader g := by
  rw [ParseShader_lines, ParseShader_lines, hf, hg, linesFor_append, linesFor_append,
    linesFor_append, linesFor_append, linesFor_marker _ _ m Y hs,
    linesFor_marker _ _ m Y hs]
  simp [markerMode, hv, hfr]

/-- C8 at the marker `#shader geometry` between `#shader vertex`, `A` and `B`. -/
theorem C8_unknown_marker_ignored_witness :
    ParseShader (some "#shader vertex\nA\n#shader geometry\nB\n".toList)
      = ParseShader (some "#shader vertex\nA\nB\n".toList)
      ∧ ParseShader (some "#shader vertex\nA\nB\n".toList)
        = { VertexSource := "A\nB\n".toList, FragmentSource := [] } :=
  ⟨C8_unknown_marker_ignored [lineVertex, "A".toList] ["B".toList]
      "#shader geometry".toList
      (some "#shader vertex\nA\n#shader geometry\nB\n".toList)
      (some "#shader vertex\nA\nB\n".toList)
      (by decide) (by decide) (by decide) (by decide) (by decide),
   by decide⟩

/-- C10: `ParseShader` distributes over concatenation at a mode-setting marker: when
`Y` is the line `m` followed by the lines `T` and `m` contains `#shader` together with
`vertex` or `fragment`, each output for `X` followed by `Y` is the output for `X`
followed by the output for `Y`. -/
theorem C10_concat_at_marker (fx fy fxy : Option Str) (X T : List Str) (m : Str)
    (hx : linesOf fx = X) (hy : linesOf fy = m :: T) (hxy : linesOf fxy = X ++ m :: T)
    (hs : found m kwShader = true)
    (hk : found m kwVertex = true ∨ found m kwFragment = true) :
    (ParseShader fxy).VertexSource
        = (ParseShader fx).VertexSource ++ (ParseShader fy).VertexSource
      ∧ (ParseShader fxy).FragmentSource
        = (ParseShader fx).FragmentSource ++ (ParseShader fy).FragmentSource := by
  have hm : ∀ md : ShaderType, markerMode md m = markerMode .NONE m := by
    intro md
    unfold markerMode
    rcases hk with hv | hf
    · simp [hv]
    · simp [hf]
  rw [ParseShader_lines, ParseShader_lines, ParseShader_lines, hx, hy, hxy,
    linesFor_append, linesFor_append, joinLines_append, joinLines_append,
    linesFor_marker _ _ m T hs, linesFor_marker _ _ m T hs, linesFor_marker _ _ m T hs,
    linesFor_marker _ _ m T hs, hm (finalMode .NONE X)]
  exact ⟨rfl, rfl⟩

/-- C10 at `X` = `#shader vertex`, `A`, `#shader fragment`, `B` and `Y` =
`#shader vertex`, `C`: the vertex section entered twice accumulates `"A\nC\n"`. -/
theorem C10_concat_at_marker_witness :
    ((ParseShader (some "#shader vertex\nA\n#shader fragment\nB\n#shader vertex\nC".toList)).VertexSource
        = (ParseShader (some "#shader vertex\nA\n#shader fragment\nB".toList)).VertexSource
          ++ (ParseShader (some "#shader vertex\nC".toList)).VertexSource
      ∧ (ParseShader (some "#shader vertex\nA\n#shader fragment\nB\n#shader vertex\nC".toList)).FragmentSource
        = (ParseShader (some "#shader vertex\nA\n#shader fragment\nB".toList)).FragmentSource
          ++ (ParseShader (some "#shader vertex\nC".toList)).FragmentSource)
      ∧ ParseShader (some "#shader vertex\nA\n#shader fragment\nB\n#shader vertex\nC".toList)
        = { VertexSource := "A\nC\n".toList, FragmentSource := "B\n".toList } :=
  ⟨C10_concat_at_marker (some "#shader vertex\nA\n#shader fragment\nB".toList)
      (some "#shader vertex\nC".toList)
      (some "#shader vertex\nA\n#shader fragment\nB\n#shader vertex\nC".toList)
      [lineVertex, "A".toList, lineFragment, "B".toList] ["C".toList] lineVertex
      (by decide) (by decide) (by decide) (by decide) (by decide),
   by decide⟩

/-! ## The loop agrees with the line-by-line description -/

theorem recentMode_snoc (ls : List Str) (l : Str) :
    recentMode (ls ++ [l]) = if isModeMarker l then some (selects l) else recentMode ls := by
  unfold recentMode
  rw [List.reverse_append, List.reverse_singleton, List.singleton_append, List.find?_cons]
  cases h : isModeMarker l <;> simp

theorem finalMode_snoc (m : ShaderType) (ls : List Str) (l : Str) :
    finalMode m (ls ++ [l])
      = if found l kwShader then markerMode (finalMode m ls) l else finalMode m ls := by
  rw [finalMode_append]
  simp [finalMode]

theorem recentMode_ne_none_mode (ls : List Str) : recentMode ls ≠ some .NONE := by
  unfold recentMode
  cases h : ls.reverse.find? isModeMarker with
  | none => simp
  | some x =>
    simp only [Option.map_some', ne_eq, Option.some.injEq]
    unfold selects
    split <;> simp

theorem finalMode_recent (ls : List Str) :
    finalMode .NONE ls = (recentMode ls).getD .NONE := by
  induction ls using List.reverseRecOn with
  | nil => rfl
  | append_singleton ls l ih =>
    rw [finalMode_snoc, recentMode_snoc, ih]
    unfold isModeMarker markerMode selects
    cases found l kwShader <;> cases found l kwVertex <;> cases found l kwFragment <;> simp

theorem finalMode_eq_iff (ls : List Str) (t : ShaderType) (ht : t ≠ .NONE) :
    finalMode .NONE ls = t ↔ recentMode ls = some t := by
  rw [finalMode_recent]
  cases h : recentMode ls with
  | none =>
    simp only [Option.getD_none, reduceCtorEq, iff_false]
    exact fun e => ht e.symm
  | some x => simp

theorem selected_snoc (t : ShaderType) (ls : List Str) (l : Str) :
    selected t (ls ++ [l])
      = selected t ls
        ++ (if (!found l kwShader && recentMode ls == some t) = true then [ls.length]
            else []) := by
  unfold selected
  rw [List.length_append, List.length_singleton, List.range_succ, List.filter_append]
  congr 1
  · apply List.filter_congr
    intro i hi
    rw [List.mem_range] at hi
    rw [List.getD_append _ _ _ _ hi, List.take_append_of_le_length (Nat.le_of_lt hi)]
  · rw [List.filter_singleton, List.getD_append_right _ _ _ _ (Nat.le_refl _), Nat.sub_self,
      List.take_left]
    have e : ([l] : List Str).getD 0 [] = l := rfl
    rw [e]
    cases (!found l kwShader && recentMode ls == some t) <;> rfl

theorem selected_lt (t : ShaderType) (ls : List Str) : ∀ i ∈ selected t ls, i < ls.length := by
  intro i hi
  unfold selected at hi
  exact List.mem_range.1 (List.mem_filter.1 hi).1

theorem specSource_snoc (t : ShaderType) (ls : List Str) (l : Str) :
    specSource t (ls ++ [l])
      = specSource t ls
        ++ (if (!found l kwShader && recentMode ls == some t) = true then l ++ ['\n']
            else []) := by
  unfold specSource
  rw [selected_snoc, List.flatMap_append]
  congr 1
  · apply List.flatMap_congr
    intro i hi
    rw [List.getD_append _ _ _ _ (selected_lt t ls i hi)]
  · split
    · rw [List.flatMap_singleton, List.getD_append_right _ _ _ _ (Nat.le_refl _), Nat.sub_self]
      rfl
    · rfl

theorem joinLines_linesFor_eq_specSource (t : ShaderType) (ht : t ≠ .NONE) (ls : List Str) :
    joinLines (linesFor t .NONE ls) = specSource t ls := by
  induction ls using List.reverseRecOn with
  | nil => rfl
  | append_singleton ls l ih =>
    rw [linesFor_append, joinLines_append, ih, specSource_snoc]
    congr 1
    have hiff := finalMode_eq_iff ls t ht
    by_cases hs : found l kwShader = true
    · simp [linesFor, hs, joinLines]
    · by_cases hm : finalMode .NONE ls = t
      · have hr := hiff.1 hm
        simp [linesFor, hs, hm, hr, joinLines]
      · have hr : ¬ recentMode ls = some t := fun e => hm (hiff.2 e)
        simp [linesFor, hs, hm, hr, joinLines]

theorem mem_selected (t : ShaderType) (ls : List Str) (i : Nat) :
    i ∈ selected t ls
      ↔ i < ls.length ∧ found (ls.getD i []) kwShader = false
          ∧ recentMode (ls.take i) = some t := by
  unfold selected
  rw [List.mem_filter, List.mem_range]
  simp

theorem recentMode_of_marker (earlier : List Str) (x : Str) (hx : x ∈ earlier)
    (hm : isModeMarker x = true) :
    recentMode earlier = some .VERTEX ∨ recentMode earlier = some .FRAGMENT := by
  unfold recentMode
  cases h : earlier.reverse.find? isModeMarker with
  | none =>
    rw [List.find?_eq_none] at h
    exact absurd hm (h x (List.mem_reverse.2 hx))
  | some y =>
    simp only [Option.map_some', Option.some.injEq]
    unfold selects
    by_cases hv : found y kwVertex = true <;> simp [hv]

/-- C2: for every input, `VertexSource` is the concatenation, in input order, of
(line + `"\n"`) over the lines that do not contain `#shader` and whose most recent
earlier mode-setting marker selected vertex, and `FragmentSource` is the same with
fragment; every line without `#shader` that follows a mode-setting marker is at
exactly one position of exactly one of the two selections (each selection lists a
position at most once); and the lines `#shader fragment`, F-lines, `#shader vertex`,
V-lines, none of the F- and V-lines containing `#shader`, give the V-lines as
`VertexSource` and the F-lines as `FragmentSource`. -/
theorem C2_output_by_recent_marker (file : Option Str) :
    (ParseShader file).VertexSource = specSource .VERTEX (linesOf file)
      ∧ (ParseShader file).FragmentSource = specSource .FRAGMENT (linesOf file)
      ∧ (∀ i, i < (linesOf file).length →
          found ((linesOf file).getD i []) kwShader = false →
          (∃ j, j < i ∧ isModeMarker ((linesOf file).getD j []) = true) →
          (i ∈ selected .VERTEX (linesOf file) ∧ i ∉ selected .FRAGMENT (linesOf file))
            ∨ (i ∈ selected .FRAGMENT (linesOf file)
                ∧ i ∉ selected .VERTEX (linesOf file)))
      ∧ (selected .VERTEX (linesOf file)).Nodup
      ∧ (selected .FRAGMENT (linesOf file)).Nodup
      ∧ (∀ F V : List Str, linesOf file = lineFragment :: F ++ lineVertex :: V →
          (∀ l ∈ F, found l kwShader = false) → (∀ l ∈ V, found l kwShader = false) →
          ParseShader file = { VertexSource := joinLines V, FragmentSource := joinLines F }) := by
  refine ⟨?_, ?_, ?_, ?_, ?_, ?_⟩
  · rw [ParseShader_lines]
    exact joinLines_linesFor_eq_specSource .VERTEX (by decide) _
  · rw [ParseShader_lines]
    exact joinLines_linesFor_eq_specSource .FRAGMENT (by decide) _
  · intro i hi hs ⟨j, hji, hj⟩
    have hjl : j < (linesOf file).length := Nat.lt_trans hji hi
    have hmem : (linesOf file).getD j [] ∈ (linesOf file).take i := by
      rw [List.getD_eq_getElem _ _ hjl, List.mem_take_iff_getElem]
      exact ⟨j, by simpa using ⟨hji, hjl⟩, rfl⟩
    rw [mem_selected, mem_selected]
    rcases recentMode_of_marker _ _ hmem hj with hr | hr
    · left
      rw [hr]
      exact ⟨⟨hi, hs, rfl⟩, fun h => by simp at h⟩
    · right
      rw [hr]
      exact ⟨⟨hi, hs, rfl⟩, fun h => by simp at h⟩
  · exact List.Nodup.filter _ (List.nodup_range _)
  · exact List.Nodup.filter _ (List.nodup_range _)
  · intro F V h hF hV
    rw [ParseShader_lines, h]
    have e : lineFragment :: F ++ lineVertex :: V = lineFragment :: (F ++ lineVertex :: V) :=
      rfl
    rw [e, linesFor_lineFragment, linesFor_lineFragment, linesFor_append, linesFor_append,
      finalMode_plain _ F hF, linesFor_lineVertex, linesFor_lineVertex,
      linesFor_plain_same _ V hV, linesFor_plain_same _ F hF,
      linesFor_plain_other _ _ (by decide) V hV, linesFor_plain_other _ _ (by decide) F hF]
    simp

/-- C2 at the lines `x`, `#shader fragment`, `F`, `#shader vertex`, `V`, `W`: the
line at position 2 goes to the fragment output only, the lines at positions 4 and
5 to the vertex output only, and the line at position 0 to neither. -/
theorem C2_output_by_recent_marker_witness :
    selected .VERTEX (linesOf (some "x\n#shader fragment\nF\n#shader vertex\nV\nW".toList))
        = [4, 5]
      ∧ selected .FRAGMENT
          (linesOf (some "x\n#shader fragment\nF\n#shader vertex\nV\nW".toList)) = [2]
      ∧ (ParseShader (some "x\n#shader fragment\nF\n#shader vertex\nV\nW".toList)).VertexSource
        = "V\nW\n".toList
      ∧ ((2 ∈ selected .VERTEX
            (linesOf (some "x\n#shader fragment\nF\n#shader vertex\nV\nW".toList))
          ∧ 2 ∉ selected .FRAGMENT
            (linesOf (some "x\n#shader fragment\nF\n#shader vertex\nV\nW".toList)))
        ∨ (2 ∈ selected .FRAGMENT
            (linesOf (some "x\n#shader fragment\nF\n#shader vertex\nV\nW".toList))
          ∧ 2 ∉ selected .VERTEX
            (linesOf (some "x\n#shader fragment\nF\n#shader vertex\nV\nW".toList))))
      ∧ ParseShader (some "#shader fragment\nF\n#shader vertex\nV\nW".toList)
        = { VertexSource := "V\nW\n".toList, FragmentSource := "F\n".toList } :=
  ⟨by decide, by decide, by decide,
   (C2_output_by_recent_marker
      (some "x\n#shader fragment\nF\n#shader vertex\nV\nW".toList)).2.2.1 2
      (by decide) (by decide) ⟨1, by decide, by decide⟩,
   (C2_output_by_recent_marker
      (some "#shader fragment\nF\n#shader vertex\nV\nW".toList)).2.2.2.2.2
      ["F".toList] ["V".toList, "W".toList] (by decide) (by decide) (by decide)⟩

/-! ## `ComplileShader` and `CreateShader` -/

theorem readCString_stored (text : Str) (rest : Buffer) (h : NUL ∈ text) :
    Buffer.readCString (text.map some ++ rest) = some (c_str text) := by
  induction text with
  | nil => simp at h
  | cons c t ih =>
    by_cases hc : c = NUL
    · simp [Buffer.readCString, c_str, hc, List.takeWhile]
    · have ht : NUL ∈ t := by
        rcases List.mem_cons.1 h with e | e
        · exact absurd e.symm hc
        · exact e
      have hne : (c != NUL) = true := by simpa using hc
      have e := ih ht
      simp only [c_str] at e
      simp only [List.map_cons, List.cons_append, Buffer.readCString, hc, ite_false,
        c_str, List.takeWhile_cons, hne, ite_true]
      exact (congrArg (Option.map (c :: ·)) e).trans rfl

/-- A shader that compiles: `ComplileShader` hands the C string of `source` to the
driver, compiles, asks for the status, prints nothing and returns the handle obtained
from `glCreateShader`; the driver is left in the state after the status query. -/
theorem ComplileShader_compiled {σ : Type} (D : Driver σ) (type : Nat) (source : Str)
    (w : World σ) (id : Nat) (g1 : σ) (result : Int) (g4 : σ)
    (h1 : D.createShader type w.gl = (id, g1))
    (h2 : D.getShaderiv id GL_COMPILE_STATUS
            (D.compileShader id (D.shaderSource id (c_str source) g1)) = (result, g4))
    (hr : result ≠ GL_FALSE) :
    ComplileShader D type source w
      = some (id,
          { gl := g4,
            calls := w.calls ++ [.glCreateShader type, .glShaderSource id (c_str source),
              .glCompileShader id, .glGetShaderiv id GL_COMPILE_STATUS],
            cout := w.cout }) := by
  simp [ComplileShader, glCreateShader, glShaderSource, glCompileShader, glGetShaderiv,
    h1, h2, hr]

/-- A shader that fails to compile, with a log the driver stores terminated inside the
buffer: `ComplileShader` prints `Failed to compile `, the stage name and the log, and
returns 0; the driver is left in the state after `glGetShaderInfoLog`. -/
theorem ComplileShader_failed {σ : Type} (D : Driver σ) (type : Nat) (source : Str)
    (w : World σ) (id : Nat) (g1 g4 g5 g6 : σ) (length : Int) (stored : Str)
    (h1 : D.createShader type w.gl = (id, g1))
    (h2 : D.getShaderiv id GL_COMPILE_STATUS
            (D.compileShader id (D.shaderSource id (c_str source) g1)) = (GL_FALSE, g4))
    (h3 : D.getShaderiv id GL_INFO_LOG_LENGTH g4 = (length, g5))
    (h4 : D.getShaderInfoLog id length g5 = (stored, g6))
    (hfit : (stored.length : Int) ≤ length) (hnul : NUL ∈ stored) :
    ComplileShader D type source w
      = some (0,
          { gl := g6,
            calls := w.calls ++ [.glCreateShader type, .glShaderSource id (c_str source),
              .glCompileShader id, .glGetShaderiv id GL_COMPILE_STATUS,
              .glGetShaderiv id GL_INFO_LOG_LENGTH, .glGetShaderInfoLog id length],
            cout := w.cout ++ "Failed to compile ".toList
              ++ (if type = GL_VERTEX_SHADER then "vertex".toList else "fragment".toList)
              ++ ['\n'] ++ c_str stored ++ ['\n'] }) := by
  have hlen : ¬ length < 0 := by omega
  have hfit2 : stored.length ≤ length.toNat := by omega
  simp [ComplileShader, glCreateShader, glShaderSource, glCompileShader, glGetShaderiv,
    glGetShaderInfoLog, coutLine, alloca, Buffer.store, h1, h2, h3, h4, hlen, hfit2,
    readCString_stored _ _ hnul]

/-- A shader that fails to compile while the driver reports a log length of 0 or
less: the behaviour of `ComplileShader` is undefined. -/
theorem ComplileShader_failed_no_log {σ : Type} (D : Driver σ) (type : Nat) (source : Str)
    (w : World σ) (id : Nat) (g1 g4 g5 : σ) (length : Int)
    (h1 : D.createShader type w.gl = (id, g1))
    (h2 : D.getShaderiv id GL_COMPILE_STATUS
            (D.compileShader id (D.shaderSource id (c_str source) g1)) = (GL_FALSE, g4))
    (h3 : D.getShaderiv id GL_INFO_LOG_LENGTH g4 = (length, g5))
    (hlen : length ≤ 0) :
    ComplileShader D type source w = none := by
  by_cases hneg : length < 0
  · simp [ComplileShader, glCreateShader, glShaderSource, glCompileShader, glGetShaderiv,
      alloca, h1, h2, h3, hneg]
  · have h0 : length = 0 := by omega
    subst h0
    cases hs : (D.getShaderInfoLog id 0 g5).1 with
    | nil =>
      simp [ComplileShader, glCreateShader, glShaderSource, glCompileShader, glGetShaderiv,
        glGetShaderInfoLog, alloca, Buffer.store, Buffer.readCString, h1, h2, h3, hs]
    | cons c t =>
      simp [ComplileShader, glCreateShader, glShaderSource, glCompileShader, glGetShaderiv,
        glGetShaderInfoLog, alloca, Buffer.store, h1, h2, h3, hs]

/-- When both calls of `ComplileShader` return, whatever handles `vs` and `fs` they
return (0 for a failed stage), `CreateShader` attaches both to the program, links,
validates, deletes both and returns the handle obtained from `glCreateProgram`; the
driver has served exactly these calls, in this order. -/
theorem CreateShader_defined {σ : Type} (D : Driver σ) (vertexShader fragmentShader : Str)
    (w : World σ) (program : Nat) (g1 : σ) (vs : Nat) (w2 : World σ) (fs : Nat)
    (w3 : World σ)
    (h1 : D.createProgram w.gl = (program, g1))
    (h2 : ComplileShader D GL_VERTEX_SHADER vertexShader
            { gl := g1, calls := w.calls ++ [.glCreateProgram], cout := w.cout }
          = some (vs, w2))
    (h3 : ComplileShader D GL_FRAGMENT_SHADER fragmentShader w2 = some (fs, w3)) :
    CreateShader D vertexShader fragmentShader w
      = some (program,
          { gl := D.deleteShader fs (D.deleteShader vs (D.validateProgram program
              (D.linkProgram program (D.attachShader program fs
                (D.attachShader program vs w3.gl))))),
            calls := w3.calls ++ [.glAttachShader program vs, .glAttachShader program fs,
              .glLinkProgram program, .glValidateProgram program,
              .glDeleteShader vs, .glDeleteShader fs],
            cout := w3.cout }) := by
  simp [CreateShader, glCreateProgram, glAttachShader, glLinkProgram, glValidateProgram,
    glDeleteShader, h1, h2, h3]

/-- With a driver whose vertex stage (handle 2) fails with the log `bad` stored
terminated in the buffer and whose fragment stage (handle 3) compiles, `CreateShader`
prints the failure, attaches 0 and 3 to program 1, links, validates, deletes 0 and 3
and returns 1; the driver has served every one of these calls. The source `v` followed
by `'\0'` and `x` reaches the driver as `v`. -/
theorem CreateShader_failed_vertex_example :
    CreateShader (recordingDriver (fun id => id == 2) ("bad".toList ++ [NUL]))
        ("v".toList ++ [NUL] ++ "x".toList) "f".toList
        { gl := (0, []), calls := [], cout := [] }
      = some (1,
          { gl := (3,
              [.glCreateProgram,
               .glCreateShader GL_VERTEX_SHADER, .glShaderSource 2 "v".toList,
               .glCompileShader 2, .glGetShaderiv 2 GL_COMPILE_STATUS,
               .glGetShaderiv 2 GL_INFO_LOG_LENGTH, .glGetShaderInfoLog 2 4,
               .glCreateShader GL_FRAGMENT_SHADER, .glShaderSource 3 "f".toList,
               .glCompileShader 3, .glGetShaderiv 3 GL_COMPILE_STATUS,
               .glAttachShader 1 0, .glAttachShader 1 3, .glLinkProgram 1,
               .glValidateProgram 1, .glDeleteShader 0, .glDeleteShader 3]),
            calls :=
              [.glCreateProgram,
               .glCreateShader GL_VERTEX_SHADER, .glShaderSource 2 "v".toList,
               .glCompileShader 2, .glGetShaderiv 2 GL_COMPILE_STATUS,
               .glGetShaderiv 2 GL_INFO_LOG_LENGTH, .glGetShaderInfoLog 2 4,
               .glCreateShader GL_FRAGMENT_SHADER, .glShaderSource 3 "f".toList,
               .glCompileShader 3, .glGetShaderiv 3 GL_COMPILE_STATUS,
               .glAttachShader 1 0, .glAttachShader 1 3, .glLinkProgram 1,
               .glValidateProgram 1, .glDeleteShader 0, .glDeleteShader 3],
            cout := "Failed to compile vertex\nbad\n".toList }) := by
  decide

/-- C9 fails on the code for a failed compile with an empty information log. The
driver reports `GL_COMPILE_STATUS = GL_FALSE` for the shader it created (handle 1)
and `GL_INFO_LOG_LENGTH = 0`, and stores nothing: `alloca(0)` gives a buffer without
a byte, and `std::cout << log` reads past it, so `ComplileShader` has no defined result
where C9 has it print the (empty) log and return 0; `CreateShader` on a failing vertex
stage (handle 2) is undefined with it, where C9 has it attach, link, validate, delete
and return the program. With the log `bad` in place of the empty one the same call of
`ComplileShader` prints it and returns 0. -/
theorem C9_empty_log_undefined :
    ((recordingDriver (fun id => id == 1) []).getShaderiv 1 GL_COMPILE_STATUS
        (1, [.glCreateShader GL_VERTEX_SHADER, .glShaderSource 1 "v".toList,
             .glCompileShader 1])).1 = GL_FALSE
      ∧ ((recordingDriver (fun id => id == 1) []).getShaderiv 1 GL_INFO_LOG_LENGTH
          (1, [.glCreateShader GL_VERTEX_SHADER, .glShaderSource 1 "v".toList,
               .glCompileShader 1, .glGetShaderiv 1 GL_COMPILE_STATUS])).1 = 0
      ∧ ComplileShader (recordingDriver (fun id => id == 1) []) GL_VERTEX_SHADER "v".toList
          { gl := (0, []), calls := [], cout := [] } = none
      ∧ CreateShader (recordingDriver (fun id => id == 2) []) "v".toList "f".toList
          { gl := (0, []), calls := [], cout := [] } = none
      ∧ ComplileShader (recordingDriver (fun id => id == 1) ("bad".toList ++ [NUL]))
          GL_VERTEX_SHADER "v".toList { gl := (0, []), calls := [], cout := [] }
        = some (0,
            { gl := (1,
                [.glCreateShader GL_VERTEX_SHADER, .glShaderSource 1 "v".toList,
                 .glCompileShader 1, .glGetShaderiv 1 GL_COMPILE_STATUS,
                 .glGetShaderiv 1 GL_INFO_LOG_LENGTH, .glGetShaderInfoLog 1 4]),
              calls :=
                [.glCreateShader GL_VERTEX_SHADER, .glShaderSource 1 "v".toList,
                 .glCompileShader 1, .glGetShaderiv 1 GL_COMPILE_STATUS,
                 .glGetShaderiv 1 GL_INFO_LOG_LENGTH, .glGetShaderInfoLog 1 4],
              cout := "Failed to compile vertex\nbad\n".toList }) := by
  decide

end OpenGL
